import Mathlib

/-!
Shallow embedding of the Miden RPC client adapter (`src/lib.rs`).

The library is a thin binding over a generated gRPC client: each public
method converts domain types (`Word`, `AccountId`, `NoteId`, `NoteTag`)
into wire-format messages, issues one remote call, and post-processes
the response. All protocol logic lives in external collaborators (tonic,
the remote node, miden-objects); the code in scope is the pure
marshalling layer, which we embed here. Machine integers (`u64`, `u32`,
bytes) are embedded as `Nat` with explicit `% 2 ^ w` truncation where
the wire behaviour depends on it.
-/

namespace MidenRpc

/-- A Miden base field element, identified by its canonical integer value
(the value the Rust `Felt::as_int` accessor returns as a `u64`). -/
structure Felt where
  val : Nat
deriving DecidableEq

/-- The canonical `u64` value of a field element (`Felt::as_int`). -/
def Felt.as_int (f : Felt) : Nat := f.val

/-- A `Word` from miden-objects: four field elements, indexed 0..3. -/
structure Word where
  w0 : Felt
  w1 : Felt
  w2 : Felt
  w3 : Felt
deriving DecidableEq

/-- A note identifier from miden-objects, characterised by its underlying
word (the Rust `NoteId::as_word` accessor). -/
structure NoteId where
  word : Word
deriving DecidableEq

/-- The underlying word of a note identifier (`NoteId::as_word`). -/
def NoteId.as_word (n : NoteId) : Word := n.word

/-- A note tag from miden-objects, characterised by its `u32` value
(the Rust `NoteTag::as_u32` accessor). -/
structure NoteTag where
  tag : Nat
deriving DecidableEq

/-- The `u32` value of a note tag (`NoteTag::as_u32`). -/
def NoteTag.as_u32 (t : NoteTag) : Nat := t.tag

/-- An account identifier from miden-objects, characterised by its
canonical byte serialization (the Rust `AccountId::to_bytes`, via the
`Serializable` trait; the adapter treats the byte sequence as opaque). -/
structure AccountId where
  bytes : List Nat
deriving DecidableEq

/-- The canonical byte serialization of an account identifier
(`AccountId::to_bytes`). -/
def AccountId.to_bytes (a : AccountId) : List Nat := a.bytes

/-- The generated proto message `primitives::Digest`: four unsigned
64-bit fields `d0..d3`. -/
structure ProtoDigest where
  d0 : Nat
  d1 : Nat
  d2 : Nat
  d3 : Nat
deriving DecidableEq

/-- The generated proto message `account::AccountId`: one raw byte field. -/
structure ProtoAccountId where
  id : List Nat
deriving DecidableEq

/-- `convert::word_to_digest` from `src/lib.rs`: builds a proto digest
whose fields are the `as_int` values of the word's four elements. -/
def word_to_digest (word : Word) : ProtoDigest :=
  { d0 := word.w0.as_int
  , d1 := word.w1.as_int
  , d2 := word.w2.as_int
  , d3 := word.w3.as_int }

/-- `convert::note_id_to_digest` from `src/lib.rs`. -/
def note_id_to_digest (note_id : NoteId) : ProtoDigest :=
  word_to_digest note_id.as_word

/-- `convert::account_id_to_proto` from `src/lib.rs`: wraps the raw byte
serialization of the account identifier. -/
def account_id_to_proto (account_id : AccountId) : ProtoAccountId :=
  { id := account_id.to_bytes }

/-- Rust `u64::to_le_bytes`: the eight bytes of `n`, least significant
first. For `n < 2 ^ 64` this is exact; larger inputs are truncated to
their low 64 bits, as the `u64` type would. -/
def u64_le_bytes (n : Nat) : List Nat :=
  [ n % 256, n / 2 ^ 8 % 256, n / 2 ^ 16 % 256, n / 2 ^ 24 % 256,
    n / 2 ^ 32 % 256, n / 2 ^ 40 % 256, n / 2 ^ 48 % 256, n / 2 ^ 56 % 256 ]

/-- The byte sequence `get_account_commitment` rebuilds from a digest:
the little-endian bytes of `d0`, `d1`, `d2`, `d3`, concatenated (the
`[d0.to_le_bytes(), .., d3.to_le_bytes()].concat()` expression). -/
def digest_le_bytes (d : ProtoDigest) : List Nat :=
  u64_le_bytes d.d0 ++ u64_le_bytes d.d1 ++ u64_le_bytes d.d2 ++ u64_le_bytes d.d3

/-- The canonical little-endian byte serialization of a `Word` in
miden-objects: the `u64` little-endian bytes of each element's canonical
value, element 0 first. -/
def word_le_bytes (w : Word) : List Nat :=
  u64_le_bytes w.w0.as_int ++ u64_le_bytes w.w1.as_int ++
    u64_le_bytes w.w2.as_int ++ u64_le_bytes w.w3.as_int

/-- The lowercase hexadecimal digit for `n < 16`, as produced by the
Rust `hex` crate. -/
def hexDigitChar (n : Nat) : Char :=
  if n < 10 then Char.ofNat (48 + n) else Char.ofNat (87 + n)

/-- `hex::encode` on a byte sequence: two lowercase hex digits per byte,
high nibble first. -/
def hex_encode : List Nat → List Char
  | [] => []
  | b :: bs => hexDigitChar (b / 16) :: hexDigitChar (b % 16) :: hex_encode bs

/-- The string `get_account_commitment` returns on success for a given
commitment digest: `format!("0x{}", hex::encode(bytes))` where `bytes`
is the little-endian concatenation of `d0..d3`. -/
def commitment_hex (d : ProtoDigest) : String :=
  String.mk ('0' :: 'x' :: hex_encode (digest_le_bytes d))

/-- The generated proto message `account::AccountSummary`, restricted to
the one field the adapter reads: the optional `account_commitment`
digest. -/
structure AccountSummary where
  account_commitment : Option ProtoDigest
deriving DecidableEq

/-- The generated proto message `account::AccountDetails`, restricted to
the fields the adapter reads: the optional `summary`, plus the opaque
serialized account data which the adapter never inspects. -/
structure AccountDetails where
  summary : Option AccountSummary
  details : Option (List Nat)
deriving DecidableEq

/-- The response post-processing of `MidenRpcClient::get_account_commitment`:
`summary.ok_or("No account summary in response")`, then
`account_commitment.ok_or("No commitment in account summary")`, then the
hex rendering of the digest. -/
def get_account_commitment_of_response (resp : AccountDetails) :
    Except String String :=
  match resp.summary with
  | none => .error "No account summary in response"
  | some summary =>
    match summary.account_commitment with
    | none => .error "No commitment in account summary"
    | some commitment => .ok (commitment_hex commitment)

/-- The generated proto message `rpc_store::SyncStateRequest`: proto3
repeated fields are plain sequences, never optional, so the embedding
gives them `List` type (an empty list is a present, empty sequence). -/
structure SyncStateRequest where
  block_num : Nat
  account_ids : List ProtoAccountId
  note_tags : List Nat
deriving DecidableEq

/-- The request `MidenRpcClient::sync_state` builds before issuing the
call: each account identifier is converted with
`convert::account_id_to_proto` and each note tag with `NoteTag::as_u32`,
by iterator `map` in input order. -/
def sync_state_request (block_num : Nat) (account_ids : List AccountId)
    (note_tags : List NoteTag) : SyncStateRequest :=
  { block_num := block_num
  , account_ids := account_ids.map (fun id => account_id_to_proto id)
  , note_tags := note_tags.map (fun tag => tag.as_u32) }

/-- The generated proto message `rpc_store::NullifierList`. -/
structure NullifierList where
  nullifiers : List ProtoDigest
deriving DecidableEq

/-- The request `MidenRpcClient::check_nullifiers` builds: each nullifier
word is converted with `convert::word_to_digest`, in input order. -/
def check_nullifiers_request (nullifiers : List Word) : NullifierList :=
  { nullifiers := nullifiers.map (fun w => word_to_digest w) }

/-- The generated proto message `note::NoteId`: an optional digest field. -/
structure ProtoNoteId where
  id : Option ProtoDigest
deriving DecidableEq

/-- The generated proto message `note::NoteIdList`. -/
structure NoteIdList where
  ids : List ProtoNoteId
deriving DecidableEq

/-- The request `MidenRpcClient::get_notes_by_id` builds: each note
identifier is wrapped as `note::NoteId { id: Some(note_id_to_digest(id)) }`,
in input order. -/
def get_notes_by_id_request (note_ids : List NoteId) : NoteIdList :=
  { ids := note_ids.map (fun id => { id := some (note_id_to_digest id) }) }

/-- A per-account proof request (`rpc_store::account_proofs_request::AccountRequest`),
opaque to the adapter: `get_account_proofs` passes these through without
inspecting them. -/
structure AccountRequest where
  raw : Nat
deriving DecidableEq

/-- The generated proto message `rpc_store::AccountProofsRequest`. -/
structure AccountProofsRequest where
  account_requests : List AccountRequest
  include_headers : Option Bool
  code_commitments : List ProtoDigest
deriving DecidableEq

/-- The request `MidenRpcClient::get_account_proofs` builds: account
requests pass through unchanged, the headers flag is wrapped in `Some`,
and each code-commitment word is converted with `convert::word_to_digest`
in input order. -/
def get_account_proofs_request (account_requests : List AccountRequest)
    (include_headers : Bool) (code_commitments : List Word) :
    AccountProofsRequest :=
  { account_requests := account_requests
  , include_headers := some include_headers
  , code_commitments := code_commitments.map (fun w => word_to_digest w) }

/-- The generated proto message `rpc_store::CheckNullifiersByPrefixRequest`. -/
structure CheckNullifiersByPrefixRequest where
  prefix_len : Nat
  nullifiers : List Nat
  block_num : Nat
deriving DecidableEq

/-- The request `MidenRpcClient::check_nullifiers_by_prefix` builds: the
prefix length, the prefix list and the block number are placed in the
request verbatim, with no validation or conversion. -/
def check_nullifiers_by_prefix_request (prefix_len : Nat)
    (nullifiers : List Nat) (block_num : Nat) :
    CheckNullifiersByPrefixRequest :=
  { prefix_len := prefix_len, nullifiers := nullifiers, block_num := block_num }

/-- The remote methods of the generated `ApiClient` stub that the claims
mention. -/
inductive RemoteMethod
  | getAccountDetails
  | syncState
  | checkNullifiers
  | getNotesById
  | getAccountProofs
deriving DecidableEq

/-- The remote invocation `MidenRpcClient::get_account_commitment` makes:
the `get_account_details` stub method, with an `account::AccountId`
message wrapping `account_id.to_bytes()` built inline. -/
def get_account_commitment_call (account_id : AccountId) :
    RemoteMethod × ProtoAccountId :=
  (RemoteMethod.getAccountDetails, { id := account_id.to_bytes })

/-- The remote invocation `MidenRpcClient::get_account_details` makes:
the `get_account_details` stub method, with an `account::AccountId`
message wrapping `account_id.to_bytes()` built inline. -/
def get_account_details_call (account_id : AccountId) :
    RemoteMethod × ProtoAccountId :=
  (RemoteMethod.getAccountDetails, { id := account_id.to_bytes })

/-- The externally observable steps of `MidenRpcClient::connect` beyond
endpoint validation: configuring TLS on the channel builder, and the
network handshake performed by `connect().await`. -/
inductive ConnectStep
  | tlsSetup
  | networkHandshake
deriving DecidableEq

/-- The external collaborators `MidenRpcClient::connect` relies on,
as oracles: `Channel::from_shared` (pure endpoint validation, no I/O),
`tls_config` (local TLS configuration), and `connect().await` (the
network handshake). Each yields an opaque success value or an error
string. -/
structure ConnectEnv where
  fromShared : String → Except String Unit
  tlsConfig : Except String Unit
  netConnect : Except String Unit

/-- Modelled control flow of `MidenRpcClient::connect`: validate the
endpoint, then configure TLS, then perform the network handshake, each
`?`-propagating its error after wrapping it with the source's format
string. The returned list records which external steps were reached, in
order. -/
def connect (env : ConnectEnv) (endpoint : String) :
    Except String Unit × List ConnectStep :=
  match env.fromShared endpoint with
  | .error e => (.error ("Invalid endpoint: " ++ e), [])
  | .ok _ =>
    match env.tlsConfig with
    | .error e => (.error ("TLS config error: " ++ e), [.tlsSetup])
    | .ok _ =>
      match env.netConnect with
      | .error e =>
        (.error ("Failed to connect to " ++ endpoint ++ ": " ++ e),
          [.tlsSetup, .networkHandshake])
      | .ok _ => (.ok (), [.tlsSetup, .networkHandshake])

/-! Helper lemmas -/

/-- Every entry of `u64_le_bytes n` is a byte value. -/
theorem u64_le_bytes_lt (n : Nat) : ∀ b ∈ u64_le_bytes n, b < 256 := by
  intro b hb
  simp only [u64_le_bytes, List.mem_cons, List.not_mem_nil, or_false] at hb
  rcases hb with h | h | h | h | h | h | h | h <;> subst h <;> omega

/-- `u64_le_bytes` always produces eight bytes. -/
theorem u64_le_bytes_length (n : Nat) : (u64_le_bytes n).length = 8 := rfl

/-- The digest byte reconstruction always produces 32 bytes. -/
theorem digest_le_bytes_length (d : ProtoDigest) :
    (digest_le_bytes d).length = 32 := by
  simp [digest_le_bytes, u64_le_bytes]

/-- Every entry of the digest byte reconstruction is a byte value. -/
theorem digest_le_bytes_lt (d : ProtoDigest) :
    ∀ b ∈ digest_le_bytes d, b < 256 := by
  intro b hb
  unfold digest_le_bytes at hb
  rcases List.mem_append.mp hb with hb3 | hb
  · rcases List.mem_append.mp hb3 with hb2 | hb
    · rcases List.mem_append.mp hb2 with hb | hb
      · exact u64_le_bytes_lt _ b hb
      · exact u64_le_bytes_lt _ b hb
    · exact u64_le_bytes_lt _ b hb
  · exact u64_le_bytes_lt _ b hb

/-- `hex_encode` emits two characters per input byte. -/
theorem hex_encode_length (bs : List Nat) :
    (hex_encode bs).length = 2 * bs.length := by
  induction bs with
  | nil => rfl
  | cons b bs ih => simp [hex_encode, ih]; omega

/-- Decidable test for a lowercase hexadecimal digit character. -/
def isLowerHexDigit (c : Char) : Bool :=
  (('0' ≤ c) && (c ≤ '9')) || (('a' ≤ c) && (c ≤ 'f'))

/-- For nibble values, `hexDigitChar` yields a lowercase hex digit. -/
theorem hexDigitChar_lowerHex : ∀ n < 16, isLowerHexDigit (hexDigitChar n) = true := by
  decide

/-- Characters emitted by `hex_encode` on byte input are lowercase hex
digits. -/
theorem hex_encode_lowerHex (bs : List Nat) (hbs : ∀ b ∈ bs, b < 256) :
    (hex_encode bs).all isLowerHexDigit = true := by
  induction bs with
  | nil => rfl
  | cons b bs ih =>
    have hb : b < 256 := hbs b (List.mem_cons_self b bs)
    have h1 : b / 16 < 16 := by omega
    have h2 : b % 16 < 16 := by omega
    simp only [hex_encode, List.all_cons, Bool.and_eq_true]
    refine ⟨hexDigitChar_lowerHex _ h1, hexDigitChar_lowerHex _ h2, ?_⟩
    exact ih (fun x hx => hbs x (List.mem_cons_of_mem b hx))

/-! Claim theorems -/

/-- C1: converting a word to wire form with `word_to_digest` and then
concatenating `d0..d3` in little-endian byte order, as
`get_account_commitment` does, reproduces the word's own canonical
little-endian byte sequence. -/
theorem digest_roundtrip_law (w : Word) :
    digest_le_bytes (word_to_digest w) = word_le_bytes w := rfl

/-- C2: on a response whose commitment digest has words `(1,2,3,4)`, the
hex-string reconstruction of `get_account_commitment` produces exactly
`0x0100000000000000020000000000000003000000000000000400000000000000`. -/
theorem commitment_hex_example :
    get_account_commitment_of_response
      { summary := some { account_commitment := some { d0 := 1, d1 := 2, d2 := 3, d3 := 4 } }
      , details := none }
      = Except.ok
          "0x0100000000000000020000000000000003000000000000000400000000000000" := rfl

/-- C3: `get_account_commitment` returns an error value, not a panic,
when the response has no summary (error `No account summary in response`)
or a summary with no commitment (error `No commitment in account
summary`). -/
theorem get_account_commitment_missing_fields :
    (∀ resp : AccountDetails, resp.summary = none →
      get_account_commitment_of_response resp
        = Except.error "No account summary in response") ∧
    (∀ resp : AccountDetails, ∀ s : AccountSummary, resp.summary = some s →
      s.account_commitment = none →
      get_account_commitment_of_response resp
        = Except.error "No commitment in account summary") := by
  constructor
  · intro resp h
    simp [get_account_commitment_of_response, h]
  · intro resp s hs hc
    simp [get_account_commitment_of_response, hs, hc]

/-- Witness for C3: both error branches realised on concrete responses. -/
theorem get_account_commitment_missing_fields_witness :
    get_account_commitment_of_response { summary := none, details := none }
      = Except.error "No account summary in response" ∧
    get_account_commitment_of_response
      { summary := some { account_commitment := none }, details := none }
      = Except.error "No commitment in account summary" :=
  ⟨get_account_commitment_missing_fields.1
      { summary := none, details := none } rfl,
   get_account_commitment_missing_fields.2
      { summary := some { account_commitment := none }, details := none }
      { account_commitment := none } rfl rfl⟩

/-- C4: when endpoint validation rejects the string, `connect` returns
the connection-configuration error `Invalid endpoint: ...` and the step
trace is empty: neither the TLS configuration step nor the network
handshake is reached. -/
theorem connect_invalid_endpoint (env : ConnectEnv) (endpoint e : String)
    (h : env.fromShared endpoint = Except.error e) :
    connect env endpoint = (Except.error ("Invalid endpoint: " ++ e), []) := by
  simp [connect, h]

/-- Witness for C4: a concrete environment whose validator rejects the
endpoint. -/
theorem connect_invalid_endpoint_witness :
    connect
      { fromShared := fun _ => Except.error "invalid uri character"
      , tlsConfig := Except.ok (), netConnect := Except.ok () }
      "not a uri"
      = (Except.error ("Invalid endpoint: " ++ "invalid uri character"), []) :=
  connect_invalid_endpoint _ "not a uri" "invalid uri character" rfl

/-- C5: `check_nullifiers_by_prefix` performs no local validation or
conversion: for every prefix length (16 or not), prefix list and block
number, the request carries the caller's inputs verbatim. -/
theorem check_nullifiers_by_prefix_passthrough (prefix_len : Nat)
    (nullifiers : List Nat) (block_num : Nat) :
    (check_nullifiers_by_prefix_request prefix_len nullifiers block_num).prefix_len
        = prefix_len ∧
    (check_nullifiers_by_prefix_request prefix_len nullifiers block_num).nullifiers
        = nullifiers ∧
    (check_nullifiers_by_prefix_request prefix_len nullifiers block_num).block_num
        = block_num :=
  ⟨rfl, rfl, rfl⟩

/-- C6: `sync_state` on empty account and tag lists still builds a
well-formed request: `account_ids` and `note_tags` are present empty
sequences (the fields have list type, not option type, in the proto
embedding) and `block_num` equals the given block number. -/
theorem sync_state_empty_lists (block_num : Nat) :
    sync_state_request block_num [] []
      = { block_num := block_num, account_ids := [], note_tags := [] } := rfl

/-- C7: the `sync_state` request's `account_ids` sequence is the
element-wise `account_id_to_proto` conversion of the inputs and its
`note_tags` sequence is the element-wise `as_u32` conversion, lengths
and positions preserved, with no deduplication or reordering. -/
theorem sync_state_elementwise (block_num : Nat) (account_ids : List AccountId)
    (note_tags : List NoteTag) :
    (sync_state_request block_num account_ids note_tags).account_ids.length
        = account_ids.length ∧
    (sync_state_request block_num account_ids note_tags).note_tags.length
        = note_tags.length ∧
    (∀ i : Nat,
      (sync_state_request block_num account_ids note_tags).account_ids[i]?
        = (account_ids[i]?).map account_id_to_proto) ∧
    (∀ i : Nat,
      (sync_state_request block_num account_ids note_tags).note_tags[i]?
        = (note_tags[i]?).map NoteTag.as_u32) := by
  refine ⟨?_, ?_, ?_, ?_⟩
  · simp [sync_state_request]
  · simp [sync_state_request]
  · intro i; simp [sync_state_request]
  · intro i; simp [sync_state_request]

/-- C8: `word_to_digest` places the four word elements into `d0..d3`
unchanged; `check_nullifiers`, `get_notes_by_id` and
`get_account_proofs` apply the digest conversion to every element of
their input lists; and account identifiers go on the wire as their raw
byte serialization. -/
theorem outbound_canonical_wire_form :
    (∀ w : Word,
      (word_to_digest w).d0 = w.w0.as_int ∧ (word_to_digest w).d1 = w.w1.as_int ∧
      (word_to_digest w).d2 = w.w2.as_int ∧ (word_to_digest w).d3 = w.w3.as_int) ∧
    (∀ nullifiers : List Word,
      (check_nullifiers_request nullifiers).nullifiers
        = nullifiers.map word_to_digest) ∧
    (∀ note_ids : List NoteId,
      (get_notes_by_id_request note_ids).ids
        = note_ids.map (fun id => { id := some (note_id_to_digest id) })) ∧
    (∀ account_requests include_headers code_commitments,
      (get_account_proofs_request account_requests include_headers
          code_commitments).code_commitments
        = code_commitments.map word_to_digest) ∧
    (∀ a : AccountId, (account_id_to_proto a).id = a.to_bytes) :=
  ⟨fun _ => ⟨rfl, rfl, rfl, rfl⟩, fun _ => rfl, fun _ => rfl,
    fun _ _ _ => rfl, fun _ => rfl⟩

/-- C9: `get_account_commitment` and `get_account_details` invoke the
same remote stub method with the identical wire request for every
account identifier; they differ only in response post-processing. -/
theorem commitment_details_same_call (account_id : AccountId) :
    get_account_commitment_call account_id
      = get_account_details_call account_id := rfl

/-- C10: every successful `get_account_commitment` string has exactly 66
characters: the prefix `0x` followed by 64 lowercase hexadecimal
characters, whatever the digest's word values. -/
theorem commitment_hex_shape (d : ProtoDigest) :
    (commitment_hex d).length = 66 ∧
    (commitment_hex d).data.take 2 = ['0', 'x'] ∧
    ((commitment_hex d).data.drop 2).all isLowerHexDigit = true := by
  refine ⟨?_, rfl, ?_⟩
  · simp [commitment_hex, String.length, hex_encode_length, digest_le_bytes_length]
  · exact hex_encode_lowerHex _ (digest_le_bytes_lt d)

end MidenRpc
